import Mathlib

/-!
Shallow embedding of the update ingestion-and-dispatch pipeline of the
go-telegram-bot repository: the data model (`Update`, `Message`, `Chat`,
content payloads), the router (`simpleRouter.Route`, src/core/router.go),
the polling batch loop (src/core/polling.go), the middleware composition
and the supplied middlewares (ComposeMiddleware, SecurityMiddleware,
RecoveryMiddleware), and the webhook HTTP handler
(src/webhooks/webhook.go).

Go functions that can panic are modelled by an explicit `Outcome` that is
either a normal return carrying the Go `error` value (`Option String`,
`none` = nil) or a panic. Side effects of one invocation are modelled
explicitly: `events` is the trace of effects the handler body performs
(used to state "invoked exactly once"), `logs` is the sequence of log
entries emitted through the structured logger. The logger itself
(part_000) only formats and prints, except that a Fatal-level entry
terminates the process via os.Exit(1); hence "the process terminates" is
visible in the model as a fatal-level entry in the log trace.
-/

namespace GoTelegramBot

/-- Log severity levels of the core logger (part_000: DebugLevel..FatalLevel).
A Fatal entry terminates the process (logf calls os.Exit(1)). -/
inductive Level where
  | debug
  | info
  | warn
  | error
  | fatal
deriving DecidableEq, Repr

/-- One structured log entry: severity and message text. The key/value
fields attached in the source carry runtime values (stacks, errors) and
are not inspected by any claim, so they are omitted from the model. -/
structure LogEntry where
  level : Level
  msg : String
deriving DecidableEq, Repr

/-- Document payload (part_000 `Document`). Only its presence is inspected
by the router, so one representative field is kept. -/
structure Document where
  fileID : String
deriving DecidableEq, Repr

/-- Animation payload (part_000 `Animation`). Only its presence is
inspected by the router. -/
structure Animation where
  fileID : String
deriving DecidableEq, Repr

/-- Chat (part_000 `Chat`): the numeric id is the only field the dispatch
core reads (SecurityMiddleware); display metadata is omitted. -/
structure Chat where
  id : Int
deriving DecidableEq, Repr

/-- Message (part_000 `Message`): id, originating chat, optional text and
optional typed payloads. Video/Audio/Contact/Location are never read by
the router (they fall into the debug fall-through branch), so they are
omitted from the model. -/
structure Message where
  messageID : Int
  chat : Chat
  text : String
  document : Option Document
  animation : Option Animation
deriving DecidableEq, Repr

/-- Update (part_000 `Update`): numeric `update_id` plus an optional
embedded message. -/
structure Update where
  updateID : Int
  message : Option Message
deriving DecidableEq, Repr

/-- Result of running a Go function value to completion: either a normal
return carrying the returned `error` (`none` = nil), or a panic carrying
the panic message. -/
inductive Outcome where
  | ret (err : Option String)
  | panicked (msg : String)
deriving DecidableEq, Repr

/-- Observable behaviour of one handler invocation: the trace of effects
the handler body performed (`events`), the log entries it emitted
(`logs`), and how it finished (`outcome`). -/
structure HRes where
  events : List String
  logs : List LogEntry
  outcome : Outcome
deriving DecidableEq, Repr

/-- core.HandlerFunc: `func(update Update) error`, which may also panic. -/
def HandlerFunc := Update → HRes

/-- The pattern `WithRecovery(logger, func() { err = handler(update) })`
(part_000 WithRecovery, used by router.go and the middlewares): the
closure runs; on a normal return the assignment to `err` happens; on a
panic WithRecovery logs exactly one Error-level entry ("Panic recovered")
and the assignment never happens. The third component is the value
assigned to `err` (`none` meaning no assignment took place, so `err`
keeps its previous value). -/
def withRecoveryCall (step : HRes) : List String × List LogEntry × Option (Option String) :=
  match step.outcome with
  | Outcome.ret e => (step.events, step.logs, some e)
  | Outcome.panicked _ => (step.events, step.logs ++ [⟨Level.error, "Panic recovered"⟩], none)

/-- Router state (router.go `simpleRouter`): exact-match command map,
exact-match callback map (never consulted by `Route` — the Update model
carries no callback-query field), and single-slot document/animation
handlers. Go maps are modelled as association lists with `List.lookup`. -/
structure simpleRouter where
  commandHandlers : List (String × HandlerFunc)
  callbackHandlers : List (String × HandlerFunc)
  documentHandler : Option HandlerFunc
  animationHandler : Option HandlerFunc

/-- Result of one `Route` call: the handler-effect trace, the log entries
emitted during the call, and the returned `error` (`none` = nil). -/
structure RouteResult where
  events : List String
  logs : List LogEntry
  err : Option String
deriving DecidableEq, Repr

/-- router.go `simpleRouter.Route` (the live definition, lines 114-157).
`var err error` starts as nil; a recovered panic leaves it nil
(`(withRecoveryCall _).2.2.getD none`). Note that `len(text) > 0 &&
text[0] == '/'` tests the first byte; since '/' is ASCII this coincides
with testing the first character. -/
def simpleRouter.Route (r : simpleRouter) (update : Update) : RouteResult :=
  match update.message with
  | none => ⟨[], [], none⟩
  | some msg =>
    let text := msg.text
    if text.length > 0 && text.front == '/' then
      match r.commandHandlers.lookup text with
      | some handler =>
        let step := withRecoveryCall (handler update)
        match step.2.2.getD none with
        | some e => ⟨step.1, step.2.1 ++ [⟨Level.error, "Error handling command"⟩], some e⟩
        | none => ⟨step.1, step.2.1 ++ [⟨Level.info, "Handled command successfully"⟩], none⟩
      | none => ⟨[], [⟨Level.warn, "No handler registered for command"⟩], none⟩
    else
      match r.documentHandler, msg.document with
      | some handler, some _ =>
        let step := withRecoveryCall (handler update)
        match step.2.2.getD none with
        | some e => ⟨step.1, step.2.1 ++ [⟨Level.error, "Error handling document"⟩], some e⟩
        | none => ⟨step.1, step.2.1, none⟩
      | _, _ =>
        match r.animationHandler, msg.animation with
        | some handler, some _ =>
          let step := withRecoveryCall (handler update)
          match step.2.2.getD none with
          | some e => ⟨step.1, step.2.1 ++ [⟨Level.error, "Error handling animation"⟩], some e⟩
          | none => ⟨step.1, step.2.1, none⟩
        | _, _ => ⟨[], [⟨Level.debug, "Received message without specific handler"⟩], none⟩

/-- Number of log entries of a given severity in a trace. -/
def countLevel (lv : Level) (l : List LogEntry) : Nat :=
  (l.filter (fun e => e.level == lv)).length

/-!  Polling (src/core/polling.go). -/

/-- The cancellation handle derived in `Start` (`context.WithCancel`):
calling it flips the cancellation flag. -/
structure CancelToken where
  cancelled : Bool
deriving DecidableEq, Repr

/-- Poller state (polling.go `pollingImpl`): the cursor (`offset`,
zero-initialised by `NewPoller`) and the cancellation handle (`cancel`,
nil until `Start` assigns it). The api/router/logger references are
passed as explicit parameters where needed. -/
structure pollingImpl where
  offset : Int
  cancel : Option CancelToken
deriving DecidableEq, Repr

/-- polling.go `NewPoller`: offset 0, no cancellation handle yet. -/
def NewPoller : pollingImpl := ⟨0, none⟩

/-- polling.go `pollingImpl.Start` (state part): derives a cancellable
context, stores its cancel function, returns nil. The launched goroutine
loop is modelled separately by `routeBatch`. -/
def pollingImpl.Start (p : pollingImpl) : pollingImpl × Option String :=
  (⟨p.offset, some ⟨false⟩⟩, none)

/-- polling.go `pollingImpl.Stop`: if a cancel function was assigned,
call it (flip the flag); always return nil. -/
def pollingImpl.Stop (p : pollingImpl) : pollingImpl × Option String :=
  match p.cancel with
  | none => (p, none)
  | some _ => (⟨p.offset, some ⟨true⟩⟩, none)

/-- The per-batch body of the polling loop (polling.go lines 52-57): for
each fetched update in order, call `Route`; if it returns an error, log
it at Error level; then unconditionally set `offset = update.UpdateID + 1`.
Returns the final cursor and the accumulated log trace. -/
def routeStep (r : simpleRouter) (acc : Int × List LogEntry) (u : Update) :
    Int × List LogEntry :=
  let res := simpleRouter.Route r u
  let lgs :=
    match res.err with
    | some _ => acc.2 ++ res.logs ++ [⟨Level.error, "Error routing update"⟩]
    | none => acc.2 ++ res.logs
  (u.updateID + 1, lgs)

/-- The loop of polling.go lines 52-57 over one fetched batch, starting
from the current cursor with an empty log trace. -/
def routeBatch (r : simpleRouter) (offset : Int) (updates : List Update) :
    Int × List LogEntry :=
  updates.foldl (routeStep r) (offset, [])

/-!  Middleware (src/unnamed/part_003 and part_002). -/

/-- MiddlewareFunc: a transformation from handler to handler. -/
def MiddlewareFunc := HandlerFunc → HandlerFunc

/-- part_003 `ComposeMiddleware`: the Go loop applies `mws[i]` for `i`
from `len(mws)-1` down to `0`, producing
`mws[0] (mws[1] (... (mws[n-1] handler)))`, i.e. a right fold. -/
def ComposeMiddleware (handler : HandlerFunc) (mws : List MiddlewareFunc) : HandlerFunc :=
  mws.foldr (fun mw h => mw h) handler

/-- part_003 `RecoveryMiddleware` (for one fixed logger): runs `next`
inside WithRecovery; the named return `err` starts as nil and a panic
leaves it nil. -/
def RecoveryMiddleware : MiddlewareFunc :=
  fun next update =>
    let step := withRecoveryCall (next update)
    ⟨step.1, step.2.1, Outcome.ret (step.2.2.getD none)⟩

/-- part_002 `SecurityMiddleware`: a fixed allow-list of chat ids (the Go
map built from the slice is membership-equivalent to the slice); an
update without a message, or whose chat id is not allowed, is rejected
with a descriptive error and a Warn log, without calling `next`. -/
def SecurityMiddleware (allowedIDs : List Int) : MiddlewareFunc :=
  fun next update =>
    match update.message with
    | none =>
      ⟨[], [⟨Level.warn, "SecurityMiddleware: update has no message"⟩],
        Outcome.ret (some "security: no message in update")⟩
    | some msg =>
      if allowedIDs.contains msg.chat.id then
        next update
      else
        ⟨[], [⟨Level.warn, "SecurityMiddleware: access denied"⟩],
          Outcome.ret (some ("security: access denied for chat " ++ toString msg.chat.id))⟩

/-!  Webhook receiver (src/webhooks/webhook.go, ListenAndServe handler). -/

/-- Outcome of the caller-supplied update callback
`func(ctx, update)` — it returns nothing but may panic. -/
inductive CBOutcome where
  | ret
  | panicked (msg : String)
deriving DecidableEq, Repr

/-- The decoded view of an inbound request body. Reading the body and
`json.Unmarshal` are standard-library calls outside this repository, so
their outcome is an input of the model: the read failed, the bytes did
not decode as an Update, or they decoded to `u`. -/
inductive BodyDecode where
  | readErr
  | badJSON
  | ok (u : Update)
deriving DecidableEq, Repr

/-- One inbound HTTP request: its method and the decode view of its body. -/
structure HttpRequest where
  method : String
  body : BodyDecode
deriving DecidableEq, Repr

/-- Result of the webhook HTTP handler on one request: the response
status and body, the log entries emitted, and the list of updates the
callback was invoked on (in order). -/
structure WebhookServeResult where
  status : Nat
  body : String
  logs : List LogEntry
  calls : List Update
deriving DecidableEq, Repr

/-- webhook.go `ListenAndServe`, the per-request handler (lines 126-158):
non-POST → 405, empty body; body read error or decode failure → 400,
empty body, Error log, callback not invoked; decoded update → Info log,
callback invoked once inside WithRecovery (a panic is absorbed with one
Error log), then 200 with literal body "OK". -/
def webhookHandle (updateHandler : Update → CBOutcome) (req : HttpRequest) :
    WebhookServeResult :=
  if req.method != "POST" then ⟨405, "", [], []⟩
  else
    match req.body with
    | BodyDecode.readErr => ⟨400, "", [⟨Level.error, "Failed to read webhook request body"⟩], []⟩
    | BodyDecode.badJSON => ⟨400, "", [⟨Level.error, "Failed to unmarshal webhook update"⟩], []⟩
    | BodyDecode.ok u =>
      let recLogs :=
        match updateHandler u with
        | CBOutcome.ret => []
        | CBOutcome.panicked _ => [⟨Level.error, "Panic recovered"⟩]
      ⟨200, "OK", ⟨Level.info, "Webhook update received"⟩ :: recLogs, [u]⟩

/-!  Concrete fixtures used by witnesses and counterexamples. -/

/-- A handler that succeeds, leaving one event in the trace. -/
def okHandler : HandlerFunc := fun _ => ⟨["ok-run"], [], Outcome.ret none⟩

/-- A handler that returns an explicit error. -/
def errHandler : HandlerFunc := fun _ => ⟨["err-run"], [], Outcome.ret (some "handler failed")⟩

/-- A handler that panics, emitting no log entries of its own. -/
def panicHandler : HandlerFunc := fun _ => ⟨["boom-run"], [], Outcome.panicked "boom"⟩

/-- Router with a panicking handler under "/boom". -/
def routerBoom : simpleRouter := ⟨[("/boom", panicHandler)], [], none, none⟩

/-- Router with a succeeding handler under "/start". -/
def routerStart : simpleRouter := ⟨[("/start", okHandler)], [], none, none⟩

/-- Router with only a document handler registered. -/
def routerDoc : simpleRouter := ⟨[], [], some okHandler, none⟩

/-- Router with no handlers at all. -/
def routerEmpty : simpleRouter := ⟨[], [], none, none⟩

/-- Update whose message text is the registered command "/boom". -/
def updBoom : Update := ⟨1, some ⟨1, ⟨7⟩, "/boom", none, none⟩⟩

/-- Update whose message text is the registered command "/start". -/
def updStart : Update := ⟨2, some ⟨2, ⟨7⟩, "/start", none, none⟩⟩

/-- Update whose message text is the unregistered command "/foo". -/
def updFoo : Update := ⟨3, some ⟨3, ⟨7⟩, "/foo", none, none⟩⟩

/-- Update whose message carries only a document payload, no command text. -/
def updDoc : Update := ⟨4, some ⟨4, ⟨7⟩, "", some ⟨"file-1"⟩, none⟩⟩

/-- Update carrying no message. -/
def updNoMsg : Update := ⟨5, none⟩

/-- Update from a chat (id 8) that is not on the allow-list used below. -/
def updDenied : Update := ⟨6, some ⟨6, ⟨8⟩, "hi", none, none⟩⟩

/-- Router with an error-returning handler under "/err". -/
def routerErr : simpleRouter := ⟨[("/err", errHandler)], [], none, none⟩

/-- Update whose message text is the registered command "/err". -/
def updErr : Update := ⟨7, some ⟨7, ⟨7⟩, "/err", none, none⟩⟩

/-- Instrumentation middleware: records its name in the trace on the way
in, then calls the next stage (the shape of the Logging/Auth/Timing
middlewares, with the log call abstracted to a trace event). -/
def enterMW (name : String) : MiddlewareFunc :=
  fun next u =>
    let r := next u
    ⟨name :: r.events, r.logs, r.outcome⟩

/-- Short-circuiting middleware: records its name, returns an error, and
never calls the next stage (the shape of a SecurityMiddleware denial). -/
def failMW (name : String) (e : String) : MiddlewareFunc :=
  fun _ _ => ⟨[name], [], Outcome.ret (some e)⟩

/-- A webhook callback that panics on every update. -/
def cbBoom : Update → CBOutcome := fun _ => CBOutcome.panicked "cb"

/-- A webhook callback that returns normally. -/
def cbOk : Update → CBOutcome := fun _ => CBOutcome.ret

/-!  Helper lemmas shared by the claim theorems. -/

lemma wrc_ret (s : HRes) (e : Option String) (h : s.outcome = Outcome.ret e) :
    withRecoveryCall s = (s.events, s.logs, some e) := by
  unfold withRecoveryCall
  rw [h]

lemma wrc_panic (s : HRes) (m : String) (h : s.outcome = Outcome.panicked m) :
    withRecoveryCall s
      = (s.events, s.logs ++ [⟨Level.error, "Panic recovered"⟩], none) := by
  unfold withRecoveryCall
  rw [h]

lemma route_no_message (r : simpleRouter) (u : Update) (hm : u.message = none) :
    simpleRouter.Route r u = ⟨[], [], none⟩ := by
  unfold simpleRouter.Route
  rw [hm]

lemma route_cmd_found (r : simpleRouter) (u : Update) (msg : Message)
    (h : HandlerFunc) (hm : u.message = some msg)
    (hc : (msg.text.length > 0 && msg.text.front == '/') = true)
    (hl : r.commandHandlers.lookup msg.text = some h) :
    simpleRouter.Route r u =
      match (withRecoveryCall (h u)).2.2.getD none with
      | some e =>
        ⟨(withRecoveryCall (h u)).1,
          (withRecoveryCall (h u)).2.1 ++ [⟨Level.error, "Error handling command"⟩], some e⟩
      | none =>
        ⟨(withRecoveryCall (h u)).1,
          (withRecoveryCall (h u)).2.1 ++ [⟨Level.info, "Handled command successfully"⟩], none⟩ := by
  unfold simpleRouter.Route
  rw [hm]
  simp only [hc, if_true, hl]

lemma route_cmd_missing (r : simpleRouter) (u : Update) (msg : Message)
    (hm : u.message = some msg)
    (hc : (msg.text.length > 0 && msg.text.front == '/') = true)
    (hl : r.commandHandlers.lookup msg.text = none) :
    simpleRouter.Route r u
      = ⟨[], [⟨Level.warn, "No handler registered for command"⟩], none⟩ := by
  unfold simpleRouter.Route
  rw [hm]
  simp only [hc, if_true, hl]

lemma route_doc_found (r : simpleRouter) (u : Update) (msg : Message)
    (h : HandlerFunc) (d : Document) (hm : u.message = some msg)
    (hc : (msg.text.length > 0 && msg.text.front == '/') = false)
    (hdh : r.documentHandler = some h) (hmd : msg.document = some d) :
    simpleRouter.Route r u =
      match (withRecoveryCall (h u)).2.2.getD none with
      | some e =>
        ⟨(withRecoveryCall (h u)).1,
          (withRecoveryCall (h u)).2.1 ++ [⟨Level.error, "Error handling document"⟩], some e⟩
      | none =>
        ⟨(withRecoveryCall (h u)).1, (withRecoveryCall (h u)).2.1, none⟩ := by
  unfold simpleRouter.Route
  rw [hm]
  simp only [hc, hdh, hmd, Bool.false_eq_true, if_false]

lemma route_anim_found (r : simpleRouter) (u : Update) (msg : Message)
    (h : HandlerFunc) (a : Animation) (hm : u.message = some msg)
    (hc : (msg.text.length > 0 && msg.text.front == '/') = false)
    (hmiss : r.documentHandler = none ∨ msg.document = none)
    (hah : r.animationHandler = some h) (hma : msg.animation = some a) :
    simpleRouter.Route r u =
      match (withRecoveryCall (h u)).2.2.getD none with
      | some e =>
        ⟨(withRecoveryCall (h u)).1,
          (withRecoveryCall (h u)).2.1 ++ [⟨Level.error, "Error handling animation"⟩], some e⟩
      | none =>
        ⟨(withRecoveryCall (h u)).1, (withRecoveryCall (h u)).2.1, none⟩ := by
  unfold simpleRouter.Route
  rw [hm]
  rcases hmiss with h1 | h1
  · simp only [hc, h1, hah, hma, Bool.false_eq_true, if_false]
  · cases hd2 : r.documentHandler <;>
      simp only [hc, h1, hd2, hah, hma, Bool.false_eq_true, if_false]

lemma route_no_match (r : simpleRouter) (u : Update) (msg : Message)
    (hm : u.message = some msg)
    (hc : (msg.text.length > 0 && msg.text.front == '/') = false)
    (hdoc : r.documentHandler = none ∨ msg.document = none)
    (hanim : r.animationHandler = none ∨ msg.animation = none) :
    simpleRouter.Route r u
      = ⟨[], [⟨Level.debug, "Received message without specific handler"⟩], none⟩ := by
  unfold simpleRouter.Route
  rw [hm]
  rcases hdoc with h1 | h1 <;> rcases hanim with h2 | h2
  · simp only [hc, h1, h2, Bool.false_eq_true, if_false]
  · cases ha2 : r.animationHandler <;>
      simp only [hc, h1, h2, ha2, Bool.false_eq_true, if_false]
  · cases hd2 : r.documentHandler <;>
      simp only [hc, h1, h2, hd2, Bool.false_eq_true, if_false]
  · cases hd2 : r.documentHandler <;> cases ha2 : r.animationHandler <;>
      simp only [hc, h1, h2, hd2, ha2, Bool.false_eq_true, if_false]

/-!  Claim theorems. -/

/-- C3: for every terminal handler H and middleware list [A, B, C],
ComposeMiddleware makes the first middleware the outermost wrapper
(the composed handler is literally A (B (C H))); with instrumented
middlewares the execution order on an update is A, then B, then C, then
H, and a stage returning an error short-circuits: the later stages and H
are never invoked. -/
theorem claim_C3 :
    (∀ (A B C : MiddlewareFunc) (H : HandlerFunc),
        ComposeMiddleware H [A, B, C] = A (B (C H)))
    ∧ (∀ (a b c : String) (H : HandlerFunc) (u : Update),
        ComposeMiddleware H [enterMW a, enterMW b, enterMW c] u
          = ⟨a :: b :: c :: (H u).events, (H u).logs, (H u).outcome⟩)
    ∧ (∀ (a b c e : String) (H : HandlerFunc) (u : Update),
        ComposeMiddleware H [enterMW a, failMW b e, enterMW c] u
          = ⟨[a, b], [], Outcome.ret (some e)⟩
        ∧ ComposeMiddleware H [failMW a e, enterMW b, enterMW c] u
          = ⟨[a], [], Outcome.ret (some e)⟩) :=
  ⟨fun _ _ _ _ => rfl, fun _ _ _ _ _ => rfl, fun _ _ _ _ _ _ => ⟨rfl, rfl⟩⟩

/-- C6: routing an update that carries no message returns success (nil
error) with no handler invocation and no log entry — commands, document
and animation handlers are all untouched. -/
theorem claim_C6 (r : simpleRouter) (u : Update) (hm : u.message = none) :
    simpleRouter.Route r u = ⟨[], [], none⟩ :=
  route_no_message r u hm

/-- Witness for C6 at the concrete no-message update. -/
theorem claim_C6_witness :
    updNoMsg.message = none
    ∧ simpleRouter.Route routerStart updNoMsg = ⟨[], [], none⟩ :=
  ⟨rfl, claim_C6 routerStart updNoMsg rfl⟩

/-- C9: Stop() on a poller whose Start was never called is a no-op
returning nil (the state, cancellation handle included, is unchanged and
no cancellation is attempted); Stop() after Start fires the cancellation
signal and returns nil. -/
theorem claim_C9 :
    pollingImpl.Stop NewPoller = (NewPoller, none)
    ∧ ∀ p : pollingImpl,
        pollingImpl.Stop (pollingImpl.Start p).1 = (⟨p.offset, some ⟨true⟩⟩, none) :=
  ⟨rfl, fun _ => rfl⟩

/-- C5: for a message whose text is non-empty and starts with '/', the
entire text is the command key: if it is registered, Route performs
exactly one invocation of that handler (the route's effect trace is
exactly the handler's) and returns the handler's result; if it is not
registered, Route invokes no handler and returns success. -/
theorem claim_C5 (r : simpleRouter) (u : Update) (msg : Message)
    (hm : u.message = some msg)
    (hc : (msg.text.length > 0 && msg.text.front == '/') = true) :
    (∀ (h : HandlerFunc) (e : Option String),
        r.commandHandlers.lookup msg.text = some h →
        (h u).outcome = Outcome.ret e →
        (simpleRouter.Route r u).events = (h u).events
        ∧ (simpleRouter.Route r u).err = e)
    ∧ (r.commandHandlers.lookup msg.text = none →
        (simpleRouter.Route r u).events = []
        ∧ (simpleRouter.Route r u).err = none) := by
  constructor
  · intro h e hl ho
    rw [route_cmd_found r u msg h hm hc hl, wrc_ret (h u) e ho]
    cases e with
    | none => exact ⟨rfl, rfl⟩
    | some s => exact ⟨rfl, rfl⟩
  · intro hl
    rw [route_cmd_missing r u msg hm hc hl]
    exact ⟨rfl, rfl⟩

/-- Witness for C5: "/start" is registered (handler runs once, returns
nil); "/foo" is not (no invocation, nil error). -/
theorem claim_C5_witness :
    ((simpleRouter.Route routerStart updStart).events = ["ok-run"]
      ∧ (simpleRouter.Route routerStart updStart).err = none)
    ∧ ((simpleRouter.Route routerStart updFoo).events = []
      ∧ (simpleRouter.Route routerStart updFoo).err = none) := by
  constructor
  · exact (claim_C5 routerStart updStart ⟨2, ⟨7⟩, "/start", none, none⟩ rfl (by decide)).1
      okHandler none rfl rfl
  · exact (claim_C5 routerStart updFoo ⟨3, ⟨7⟩, "/foo", none, none⟩ rfl (by decide)).2
      rfl

/-- C7: a message carrying a document payload and no leading-'/' text:
with a document handler registered, Route performs exactly one
invocation of it (whatever its outcome); with neither document nor
animation handler registered, Route invokes nothing and returns
success. -/
theorem claim_C7 (r : simpleRouter) (u : Update) (msg : Message) (d : Document)
    (hm : u.message = some msg)
    (hc : (msg.text.length > 0 && msg.text.front == '/') = false)
    (hmd : msg.document = some d) :
    (∀ h : HandlerFunc, r.documentHandler = some h →
        (simpleRouter.Route r u).events = (h u).events)
    ∧ (r.documentHandler = none → r.animationHandler = none →
        (simpleRouter.Route r u).events = []
        ∧ (simpleRouter.Route r u).err = none) := by
  constructor
  · intro h hdh
    rw [route_doc_found r u msg h d hm hc hdh hmd]
    cases ho : (h u).outcome with
    | ret e =>
      rw [wrc_ret (h u) e ho]
      cases e with
      | none => rfl
      | some s => rfl
    | panicked m =>
      rw [wrc_panic (h u) m ho]
      rfl
  · intro hdh hah
    rw [route_no_match r u msg hm hc (Or.inl hdh) (Or.inl hah)]
    exact ⟨rfl, rfl⟩

/-- Witness for C7 at a document-only update, with and without a
registered document handler. -/
theorem claim_C7_witness :
    (simpleRouter.Route routerDoc updDoc).events = ["ok-run"]
    ∧ (simpleRouter.Route routerEmpty updDoc).events = []
    ∧ (simpleRouter.Route routerEmpty updDoc).err = none := by
  refine ⟨?_, ?_, ?_⟩
  · exact (claim_C7 routerDoc updDoc ⟨4, ⟨7⟩, "", some ⟨"file-1"⟩, none⟩ ⟨"file-1"⟩
      rfl (by decide) rfl).1 okHandler rfl
  · exact ((claim_C7 routerEmpty updDoc ⟨4, ⟨7⟩, "", some ⟨"file-1"⟩, none⟩ ⟨"file-1"⟩
      rfl (by decide) rfl).2 rfl rfl).1
  · exact ((claim_C7 routerEmpty updDoc ⟨4, ⟨7⟩, "", some ⟨"file-1"⟩, none⟩ ⟨"file-1"⟩
      rfl (by decide) rfl).2 rfl rfl).2

/-- C8: the access-control middleware rejects with a descriptive failure
— without calling the downstream handler — any update whose message is
absent or whose chat id is not in the allowed set, and otherwise calls
the downstream handler and returns its result unchanged. -/
theorem claim_C8 (allowed : List Int) (next : HandlerFunc) (u : Update) :
    (u.message = none →
        SecurityMiddleware allowed next u
          = ⟨[], [⟨Level.warn, "SecurityMiddleware: update has no message"⟩],
              Outcome.ret (some "security: no message in update")⟩)
    ∧ (∀ msg : Message, u.message = some msg →
        allowed.contains msg.chat.id = false →
        SecurityMiddleware allowed next u
          = ⟨[], [⟨Level.warn, "SecurityMiddleware: access denied"⟩],
              Outcome.ret (some ("security: access denied for chat " ++ toString msg.chat.id))⟩)
    ∧ (∀ msg : Message, u.message = some msg →
        allowed.contains msg.chat.id = true →
        SecurityMiddleware allowed next u = next u) := by
  refine ⟨fun hm => ?_, fun msg hm hd => ?_, fun msg hm ha => ?_⟩
  · unfold SecurityMiddleware
    rw [hm]
  · unfold SecurityMiddleware
    rw [hm]
    simp only [hd, Bool.false_eq_true, if_false]
  · unfold SecurityMiddleware
    rw [hm]
    simp only [ha, if_true]

/-- Witness for C8 with allow-list \x7b7\x7d: a message-less update and a
chat-8 update are rejected without invoking the handler; a chat-7 update
passes through unchanged. -/
theorem claim_C8_witness :
    SecurityMiddleware [7] okHandler updNoMsg
      = ⟨[], [⟨Level.warn, "SecurityMiddleware: update has no message"⟩],
          Outcome.ret (some "security: no message in update")⟩
    ∧ SecurityMiddleware [7] okHandler updDenied
      = ⟨[], [⟨Level.warn, "SecurityMiddleware: access denied"⟩],
          Outcome.ret (some ("security: access denied for chat " ++ toString (8 : Int)))⟩
    ∧ SecurityMiddleware [7] okHandler updStart = okHandler updStart := by
  refine ⟨(claim_C8 [7] okHandler updNoMsg).1 rfl, ?_, ?_⟩
  · exact (claim_C8 [7] okHandler updDenied).2.1 ⟨6, ⟨8⟩, "hi", none, none⟩ rfl (by decide)
  · exact (claim_C8 [7] okHandler updStart).2.2 ⟨2, ⟨7⟩, "/start", none, none⟩ rfl (by decide)

/-- C4: the webhook HTTP handler answers any non-POST request with 405
and an empty body, without touching the body or the callback; a POST
whose body cannot be read or decoded gets 400 and the callback is never
invoked; a POST that decodes to an Update gets 200 with the literal body
"OK" and exactly one callback invocation — for every callback, including
one that panics. -/
theorem claim_C4 (cb : Update → CBOutcome) :
    (∀ req : HttpRequest, req.method ≠ "POST" →
        webhookHandle cb req = ⟨405, "", [], []⟩)
    ∧ (∀ req : HttpRequest, req.method = "POST" →
        (req.body = BodyDecode.readErr ∨ req.body = BodyDecode.badJSON) →
        (webhookHandle cb req).status = 400 ∧ (webhookHandle cb req).calls = [])
    ∧ (∀ (req : HttpRequest) (u : Update), req.method = "POST" →
        req.body = BodyDecode.ok u →
        (webhookHandle cb req).status = 200
        ∧ (webhookHandle cb req).body = "OK"
        ∧ (webhookHandle cb req).calls = [u]) := by
  refine ⟨fun req hm => ?_, fun req hm hb => ?_, fun req u hm hb => ?_⟩
  · unfold webhookHandle
    rw [if_pos (bne_iff_ne.mpr hm)]
  · unfold webhookHandle
    rw [if_neg (by simp [hm])]
    rcases hb with h | h <;> rw [h] <;> exact ⟨rfl, rfl⟩
  · unfold webhookHandle
    rw [if_neg (by simp [hm]), hb]
    exact ⟨rfl, rfl, rfl⟩

/-- Witness for C4: a GET gets 405; a POST with an undecodable body gets
400 with no callback call; a POST with a decodable body gets 200 "OK"
with one callback call even though the callback panics. -/
theorem claim_C4_witness :
    webhookHandle cbOk ⟨"GET", BodyDecode.ok updStart⟩ = ⟨405, "", [], []⟩
    ∧ (webhookHandle cbOk ⟨"POST", BodyDecode.badJSON⟩).status = 400
    ∧ (webhookHandle cbOk ⟨"POST", BodyDecode.badJSON⟩).calls = []
    ∧ (webhookHandle cbBoom ⟨"POST", BodyDecode.ok updStart⟩).status = 200
    ∧ (webhookHandle cbBoom ⟨"POST", BodyDecode.ok updStart⟩).body = "OK"
    ∧ (webhookHandle cbBoom ⟨"POST", BodyDecode.ok updStart⟩).calls = [updStart] := by
  refine ⟨(claim_C4 cbOk).1 ⟨"GET", BodyDecode.ok updStart⟩ (by decide), ?_, ?_, ?_, ?_, ?_⟩
  · exact ((claim_C4 cbOk).2.1 ⟨"POST", BodyDecode.badJSON⟩ rfl (Or.inr rfl)).1
  · exact ((claim_C4 cbOk).2.1 ⟨"POST", BodyDecode.badJSON⟩ rfl (Or.inr rfl)).2
  · exact ((claim_C4 cbBoom).2.2 ⟨"POST", BodyDecode.ok updStart⟩ updStart rfl rfl).1
  · exact ((claim_C4 cbBoom).2.2 ⟨"POST", BodyDecode.ok updStart⟩ updStart rfl rfl).2.1
  · exact ((claim_C4 cbBoom).2.2 ⟨"POST", BodyDecode.ok updStart⟩ updStart rfl rfl).2.2

/-- C1 counterexample: "/boom" is registered to a handler that panics;
Route recovers the panic but `err` is never assigned, so Route returns
nil — refuting "Route returns a non-nil error". The recovery does log
exactly one error-level entry. -/
theorem claim_C1_counterexample :
    (simpleRouter.Route routerBoom updBoom).err = none
    ∧ countLevel Level.error (simpleRouter.Route routerBoom updBoom).logs = 1 := by
  decide

/-- C1 as amended: when the registered command handler panics (emitting
no log entries of its own), Route returns nil — not an error — the
process does not terminate (no fatal-level entry is produced), and
exactly one error-level log entry is produced (the panic-recovery
entry). -/
theorem claim_C1_amended (r : simpleRouter) (u : Update) (msg : Message)
    (h : HandlerFunc) (m : String)
    (hm : u.message = some msg)
    (hc : (msg.text.length > 0 && msg.text.front == '/') = true)
    (hl : r.commandHandlers.lookup msg.text = some h)
    (ho : (h u).outcome = Outcome.panicked m)
    (hlogs : (h u).logs = []) :
    (simpleRouter.Route r u).err = none
    ∧ countLevel Level.error (simpleRouter.Route r u).logs = 1
    ∧ countLevel Level.fatal (simpleRouter.Route r u).logs = 0 := by
  rw [route_cmd_found r u msg h hm hc hl, wrc_panic (h u) m ho, hlogs]
  exact ⟨rfl, rfl, rfl⟩

/-- Witness for the amended C1 at the concrete panicking fixture. -/
theorem claim_C1_amended_witness :
    (simpleRouter.Route routerBoom updBoom).err = none
    ∧ countLevel Level.error (simpleRouter.Route routerBoom updBoom).logs = 1
    ∧ countLevel Level.fatal (simpleRouter.Route routerBoom updBoom).logs = 0 :=
  claim_C1_amended routerBoom updBoom ⟨1, ⟨7⟩, "/boom", none, none⟩ panicHandler "boom"
    rfl (by decide) rfl rfl rfl

lemma route_err_anim (r : simpleRouter) (u : Update) (msg : Message) (e : String)
    (hm : u.message = some msg)
    (hc : (msg.text.length > 0 && msg.text.front == '/') = false)
    (hmiss : r.documentHandler = none ∨ msg.document = none)
    (he : (simpleRouter.Route r u).err = some e) :
    ∃ h, r.animationHandler = some h ∧ msg.animation.isSome = true
      ∧ (h u).outcome = Outcome.ret (some e) := by
  cases hah : r.animationHandler with
  | none =>
    rw [route_no_match r u msg hm hc hmiss (Or.inl hah)] at he
    simp at he
  | some h =>
    cases hma : msg.animation with
    | none =>
      rw [route_no_match r u msg hm hc hmiss (Or.inr hma)] at he
      simp at he
    | some a =>
      rw [route_anim_found r u msg h a hm hc hmiss hah hma] at he
      cases ho : (h u).outcome with
      | ret e2 =>
        rw [wrc_ret (h u) e2 ho] at he
        cases e2 with
        | none => simp at he
        | some s =>
          simp at he
          refine ⟨h, rfl, rfl, ?_⟩
          rw [ho, he]
      | panicked m2 =>
        rw [wrc_panic (h u) m2 ho] at he
        simp at he

/-- C10 (implicit): Route returns a non-nil error only when it invoked a
registered handler (by command key, document slot or animation slot) and
that handler's invocation returned that non-nil error; in every other
case — no message, unmatched command, no matching content handler, or
an invoked handler that panicked — Route returns nil. -/
theorem claim_C10 (r : simpleRouter) (u : Update) (e : String)
    (he : (simpleRouter.Route r u).err = some e) :
    ∃ msg, u.message = some msg
      ∧ ((∃ h, (msg.text.length > 0 && msg.text.front == '/') = true
            ∧ r.commandHandlers.lookup msg.text = some h
            ∧ (h u).outcome = Outcome.ret (some e))
        ∨ (∃ h, (msg.text.length > 0 && msg.text.front == '/') = false
            ∧ r.documentHandler = some h ∧ msg.document.isSome = true
            ∧ (h u).outcome = Outcome.ret (some e))
        ∨ (∃ h, (msg.text.length > 0 && msg.text.front == '/') = false
            ∧ r.animationHandler = some h ∧ msg.animation.isSome = true
            ∧ (h u).outcome = Outcome.ret (some e))) := by
  cases hm : u.message with
  | none =>
    rw [route_no_message r u hm] at he
    simp at he
  | some msg =>
    refine ⟨msg, rfl, ?_⟩
    cases hc : (msg.text.length > 0 && msg.text.front == '/') with
    | true =>
      cases hl : r.commandHandlers.lookup msg.text with
      | none =>
        rw [route_cmd_missing r u msg hm hc hl] at he
        simp at he
      | some h =>
        rw [route_cmd_found r u msg h hm hc hl] at he
        cases ho : (h u).outcome with
        | ret e2 =>
          rw [wrc_ret (h u) e2 ho] at he
          cases e2 with
          | none => simp at he
          | some s =>
            simp at he
            exact Or.inl ⟨h, rfl, rfl, by rw [ho, he]⟩
        | panicked m2 =>
          rw [wrc_panic (h u) m2 ho] at he
          simp at he
    | false =>
      cases hdh : r.documentHandler with
      | none =>
        obtain ⟨h2, hah, hma, ho⟩ := route_err_anim r u msg e hm hc (Or.inl hdh) he
        exact Or.inr (Or.inr ⟨h2, rfl, hah, hma, ho⟩)
      | some h =>
        cases hmd : msg.document with
        | none =>
          obtain ⟨h2, hah, hma, ho⟩ := route_err_anim r u msg e hm hc (Or.inr hmd) he
          exact Or.inr (Or.inr ⟨h2, rfl, hah, hma, ho⟩)
        | some d =>
          rw [route_doc_found r u msg h d hm hc hdh hmd] at he
          cases ho : (h u).outcome with
          | ret e2 =>
            rw [wrc_ret (h u) e2 ho] at he
            cases e2 with
            | none => simp at he
            | some s =>
              simp at he
              exact Or.inr (Or.inl ⟨h, rfl, rfl, rfl, by rw [ho, he]⟩)
          | panicked m2 =>
            rw [wrc_panic (h u) m2 ho] at he
            simp at he

/-- Witness for C10: "/err" is registered to a handler returning an
error; Route returns it, and the command disjunct holds. -/
theorem claim_C10_witness :
    ∃ msg, updErr.message = some msg
      ∧ ((∃ h, (msg.text.length > 0 && msg.text.front == '/') = true
            ∧ routerErr.commandHandlers.lookup msg.text = some h
            ∧ (h updErr).outcome = Outcome.ret (some "handler failed"))
        ∨ (∃ h, (msg.text.length > 0 && msg.text.front == '/') = false
            ∧ routerErr.documentHandler = some h ∧ msg.document.isSome = true
            ∧ (h updErr).outcome = Outcome.ret (some "handler failed"))
        ∨ (∃ h, (msg.text.length > 0 && msg.text.front == '/') = false
            ∧ routerErr.animationHandler = some h ∧ msg.animation.isSome = true
            ∧ (h updErr).outcome = Outcome.ret (some "handler failed"))) :=
  claim_C10 routerErr updErr "handler failed" (by decide)

lemma routeStep_fst (r : simpleRouter) (acc : Int × List LogEntry) (u : Update) :
    (routeStep r acc u).1 = u.updateID + 1 := rfl

lemma routeBatch_foldl_fst (r : simpleRouter) :
    ∀ (us : List Update) (acc : Int × List LogEntry) (hne : us ≠ []),
      (us.foldl (routeStep r) acc).1 = (us.getLast hne).updateID + 1 := by
  intro us
  induction us with
  | nil => intro _ hne; exact absurd rfl hne
  | cons u t ih =>
    intro acc hne
    cases t with
    | nil => exact routeStep_fst r acc u
    | cons v t2 =>
      rw [List.foldl_cons, ih (routeStep r acc u) (List.cons_ne_nil v t2)]
      rw [List.getLast_cons_cons]

lemma chain_le_getLast :
    ∀ (us : List Update) (hne : us ≠ []),
      List.Chain' (fun a b => a.updateID < b.updateID) us →
      ∀ v ∈ us, v.updateID ≤ (us.getLast hne).updateID := by
  intro us
  induction us with
  | nil => intro hne; exact absurd rfl hne
  | cons u t ih =>
    intro hne hch v hv
    cases t with
    | nil =>
      rw [List.mem_singleton] at hv
      subst hv
      exact le_refl _
    | cons w t2 =>
      rw [List.getLast_cons (by simp)]
      rcases List.mem_cons.mp hv with rfl | hv2
      · have h1 : v.updateID < w.updateID := (List.chain'_cons.mp hch).1
        have h2 := ih (by simp) (List.chain'_cons.mp hch).2 w (by simp)
        omega
      · exact ih (by simp) (List.chain'_cons.mp hch).2 v hv2

/-- C2: for any non-empty batch of updates with strictly increasing
update_id, after the polling loop routes the whole batch the cursor
equals max(update_id seen) + 1, for every router — i.e. regardless of
whether each per-update Route call succeeded or returned an error. -/
theorem claim_C2 (r : simpleRouter) (offset : Int) (us : List Update)
    (hne : us ≠ [])
    (hinc : List.Chain' (fun a b => a.updateID < b.updateID) us) :
    ∃ m : Int, (routeBatch r offset us).1 = m + 1
      ∧ m ∈ us.map Update.updateID
      ∧ ∀ i ∈ us.map Update.updateID, i ≤ m := by
  refine ⟨(us.getLast hne).updateID, routeBatch_foldl_fst r us (offset, []) hne, ?_, ?_⟩
  · exact List.mem_map_of_mem Update.updateID (List.getLast_mem hne)
  · intro i hi
    obtain ⟨v, hv, rfl⟩ := List.mem_map.mp hi
    exact chain_le_getLast us hne hinc v hv

/-- Witness for C2: a batch of three updates (ids 2, 3, 5) routed through
a router that handles one of them; the cursor ends at 6 = 5 + 1. -/
theorem claim_C2_witness :
    ∃ m : Int, (routeBatch routerStart 0 [updStart, updFoo, updNoMsg]).1 = m + 1
      ∧ m ∈ [updStart, updFoo, updNoMsg].map Update.updateID
      ∧ ∀ i ∈ [updStart, updFoo, updNoMsg].map Update.updateID, i ≤ m :=
  claim_C2 routerStart 0 [updStart, updFoo, updNoMsg] (by decide)
    (by simp only [List.chain'_cons, List.chain'_singleton, and_true]; decide)

end GoTelegramBot
